import Mathlib

/-!
Verification development for the pipifax-modules repository.

The embedding covers:
* `pipifax_io/pipifax_io/json_serialization.py` — the type-directed JSON
  serializer/deserializer compiler and the schema-less blind serializer;
* `pipifax_io/type_serializer.py` — the abstract serializer/deserializer
  code generators (union tagging, collision check);
* `pipifax_io/code_generator.py` — the compiled-routine invocation flow
  (linecache registration, diagnostic notes);
* `pipifax_io/pipifax_io/serializable.py` — `FileSystemStore.save`.

The Python code is a code generator: it emits program text which is then
compiled and executed.  Each generator branch emits a fixed statement
template, so we embed each branch by its denotation: the function from the
value bound to the branch's input binding (and the current value of its
output binding, which generated code for fixed tuples also reads) to the
value left in the output binding.  Build-time work (dispatch on the type
descriptor, schema errors) is separated from run-time work (the compiled
fragment applied to a value) exactly as in the source, where `compile_*`
raises schema errors before any value is seen.

The compilers are written with an explicit fuel parameter so that every
definition is structurally recursive and evaluates by `rfl`/`decide` on
concrete inputs; top-level wrappers supply fuel derived from a structural
size function, which bounds the recursion depth.
-/

namespace Pipifax

/-- Python runtime values, as far as the serialization core manipulates
them: JSON scalars, byte strings, lists, tuples, insertion-ordered dicts
(modelled as association lists) and datetimes (modelled as an opaque
integer timestamp, since `datetime` is standard-library, external to the
repository). -/
inductive Value where
  | none
  | bool (b : Bool)
  | int (n : Int)
  | str (s : String)
  | bytes (bs : List Nat)
  | pylist (xs : List Value)
  | pytuple (xs : List Value)
  | pydict (entries : List (Value × Value))
  | datetime (t : Int)

/-- Type descriptors: the normalised `(kind, args)` surface accepted by the
compilers (json_serialization.py and type_serializer.py).  `union` is the
PEP-604 union form (`X | Y`), `tuple` the fixed-arity `tuple[T1, ..., Tn]`,
`tupleVar` the variadic `tuple[T, ...]`, `list` a homogeneous sequence,
`dict` a mapping with key and value argument. -/
inductive Ty where
  | str
  | int
  | float
  | bool
  | noneT
  | bytes
  | datetime
  | union (args : List Ty)
  | tuple (args : List Ty)
  | tupleVar (t : Ty)
  | list (t : Ty)
  | dict (k v : Ty)

/-- Whether a descriptor is literally `str` (the source tests `key_t is str`
and `issubclass(args[0], str)`). -/
def Ty.isStrT : Ty → Bool
  | .str => true
  | _ => false

/-- Whether a descriptor is the null primitive (`types.NoneType`). -/
def Ty.isNoneTy : Ty → Bool
  | .noneT => true
  | _ => false

/-- Whether a descriptor is a union (`type(type_) in (typing.Union,
types.UnionType)` on a PEP-604 union expression). -/
def Ty.isUnionTy : Ty → Bool
  | .union _ => true
  | _ => false

/-- Runtime errors raised while a compiled routine (or the blind
serializer) runs on a concrete value. -/
inductive PyErr where
  | nameError (v : String)
  | attributeError (a : String)
  | typeError (m : String)
  | valueError (m : String)
  | indexError (m : String)
  | keyError (m : String)
  | serializationError (m : String)
  | fuel
deriving Repr

/-- Build-time (schema) errors raised while compiling a descriptor, before
any value is processed.  `indexError` models the uncaught Python
`IndexError` from `args[-1]` on an empty argument tuple. -/
inductive BuildErr where
  | serializationError (m : String)
  | deserializationError (m : String)
  | indexError (m : String)
  | fuel
deriving Repr

/-- Errors of the end-to-end entry points: either a schema error from the
build phase or a runtime error from applying the compiled routine. -/
inductive SerErr where
  | build (e : BuildErr)
  | run (e : PyErr)
deriving Repr

/-- A compiled code fragment's denotation: from the value of its input
binding and the current value of its output binding (generated code for
fixed tuples reads the output binding; an unbound name is an error slot)
to the value left in the output binding. -/
def Frag : Type := Except PyErr Value → Except PyErr Value → Except PyErr Value

/-- The identity fragment: `codegen.assign(out_var, in_var)`, i.e.
`out = inp`. -/
def Frag.idf : Frag := fun iv _ => iv

/-- The base64 alphabet, `A-Z a-z 0-9 + /`. -/
def b64chars : List Char :=
  "ABCDEFGHIJKLMNOPQRSTUVWXYZabcdefghijklmnopqrstuvwxyz0123456789+/".toList

/-- One base64 output character for a 6-bit group. -/
def b64char (n : Nat) : Char := b64chars.getD n 'A'

/-- Standard base64 encoding with padding (`base64.b64encode(...)` followed
by `.decode("utf-8")`; the stdlib `base64` module is external to the
repository, modelled by the RFC 4648 algorithm it implements). -/
def b64encode : List Nat → String
  | [] => ""
  | [a] =>
    String.mk [b64char (a / 4), b64char (a % 4 * 16), '=', '=']
  | [a, b] =>
    String.mk [b64char (a / 4), b64char (a % 4 * 16 + b / 16),
               b64char (b % 16 * 4), '=']
  | a :: b :: c :: rest =>
    String.mk [b64char (a / 4), b64char (a % 4 * 16 + b / 16),
               b64char (b % 16 * 4 + c / 64), b64char (c % 64)] ++ b64encode rest

/-- Index of a character in the base64 alphabet. -/
def b64index (c : Char) : Option Nat :=
  (b64chars.indexOf? c).map id

/-- Standard base64 decoding (`base64.b64decode`): strips padding, decodes
4-character groups; invalid input raises `binascii.Error`, modelled as a
`valueError`. -/
def b64decodeChars : List Char → Except PyErr (List Nat)
  | [] => .ok []
  | [c1, c2, '=', '='] =>
    match b64index c1, b64index c2 with
    | some a, some b => .ok [a * 4 + b / 16]
    | _, _ => .error (.valueError "Invalid base64-encoded string")
  | [c1, c2, c3, '='] =>
    match b64index c1, b64index c2, b64index c3 with
    | some a, some b, some c => .ok [a * 4 + b / 16, b % 16 * 16 + c / 4]
    | _, _, _ => .error (.valueError "Invalid base64-encoded string")
  | c1 :: c2 :: c3 :: c4 :: rest =>
    match b64index c1, b64index c2, b64index c3, b64index c4 with
    | some a, some b, some c, some d => do
      let tail ← b64decodeChars rest
      .ok ([a * 4 + b / 16, b % 16 * 16 + c / 4, c % 4 * 64 + d] ++ tail)
    | _, _, _, _ => .error (.valueError "Invalid base64-encoded string")
  | _ => .error (.valueError "Invalid base64-encoded string")

/-- `base64.b64decode` on the UTF-8 encoding of a text value. -/
def b64decodeStr (s : String) : Except PyErr (List Nat) :=
  b64decodeChars s.toList

/-- ISO-8601 text for a timestamp (`datetime.isoformat`; the `datetime`
module is standard-library, external to the repository, modelled as an
injective textual encoding of the opaque timestamp). -/
def isoformat (t : Int) : String := "iso:" ++ toString t

/-- Parse decimal digits into a natural number. -/
def parseDigits : List Char → Option Nat
  | [] => Option.none
  | cs =>
    cs.foldlM (fun acc c =>
      if c.isDigit then some (acc * 10 + (c.toNat - 48)) else Option.none) 0

/-- Partial inverse of `isoformat` (`datetime.datetime.fromisoformat`;
unparsable text raises `ValueError`). -/
def fromisoformat (s : String) : Option Int :=
  match s.toList with
  | 'i' :: 's' :: 'o' :: ':' :: '-' :: ds => (parseDigits ds).map (fun n => -(n : Int))
  | 'i' :: 's' :: 'o' :: ':' :: ds => (parseDigits ds).map (fun n => (n : Int))
  | _ => Option.none

mutual

/-- Python `==` on runtime values: numeric equality identifies `bool` and
`int` (`True == 1`), containers compare element-wise, dicts compare as
key/value sets; values of different non-numeric kinds are unequal. -/
def pyEq : Value → Value → Bool
  | .none, .none => true
  | .bool x, .bool y => x == y
  | .bool x, .int m => (if x then (1 : Int) else 0) == m
  | .int m, .bool x => m == (if x then (1 : Int) else 0)
  | .int x, .int y => x == y
  | .str x, .str y => x == y
  | .bytes x, .bytes y => x == y
  | .pylist xs, .pylist ys => pyEqList xs ys
  | .pytuple xs, .pytuple ys => pyEqList xs ys
  | .pydict es, .pydict fs => pyEqEntries es fs
  | .datetime x, .datetime y => x == y
  | _, _ => false

def pyEqList : List Value → List Value → Bool
  | [], [] => true
  | x :: xs, y :: ys => pyEq x y && pyEqList xs ys
  | _, _ => false

def pyEqEntries : List (Value × Value) → List (Value × Value) → Bool
  | [], [] => true
  | (k, v) :: es, (k2, v2) :: fs => pyEq k k2 && pyEq v v2 && pyEqEntries es fs
  | _, _ => false

end

/-- Python subscripting with a non-negative integer literal, `x[i]`, as it
appears in generated code (`inp[0]`, `out[1]`, ...). Sequences index
positionally, dicts look the integer up as a key, scalars raise
`TypeError`. -/
def pyIndex : Value → Nat → Except PyErr Value
  | .pylist xs, i =>
    match xs[i]? with
    | some x => .ok x
    | Option.none => .error (.indexError "list index out of range")
  | .pytuple xs, i =>
    match xs[i]? with
    | some x => .ok x
    | Option.none => .error (.indexError "tuple index out of range")
  | .str s, i =>
    match s.toList[i]? with
    | some c => .ok (.str (String.mk [c]))
    | Option.none => .error (.indexError "string index out of range")
  | .bytes bs, i =>
    match bs[i]? with
    | some b => .ok (.int (Int.ofNat b))
    | Option.none => .error (.indexError "index out of range")
  | .pydict es, i =>
    match es.find? (fun (k, _) => pyEq k (.int (Int.ofNat i))) with
    | some (_, v) => .ok v
    | Option.none => .error (.keyError "key not found")
  | _, _ => .error (.typeError "object is not subscriptable")

/-- Python iteration, `list(x)` / `for e in x`: lists and tuples yield
their elements, strings their characters, byte strings their byte values,
dicts their keys; anything else raises `TypeError`. -/
def pyToList : Value → Except PyErr (List Value)
  | .pylist xs => .ok xs
  | .pytuple xs => .ok xs
  | .str s => .ok (s.toList.map (fun c => .str (String.mk [c])))
  | .bytes bs => .ok (bs.map (fun b => .int (Int.ofNat b)))
  | .pydict es => .ok (es.map Prod.fst)
  | _ => .error (.typeError "object is not iterable")

/-- Python dict item assignment `d[k] = v`: replaces the value of an
`==`-equal existing key in place (keeping its position) or appends a new
entry. -/
def dictSet : List (Value × Value) → Value → Value → List (Value × Value)
  | [], k, v => [(k, v)]
  | (k0, v0) :: es, k, v =>
    if pyEq k0 k then (k0, v) :: es else (k0, v0) :: dictSet es k v

/-- A sequence of dict item assignments, in order (dict displays and
comprehensions with colliding keys keep the last value). -/
def dictBuild (ps : List (Value × Value)) : List (Value × Value) :=
  ps.foldl (fun acc (k, v) => dictSet acc k v) []

/-- JSON string escaping for `json.dumps` (quote and backslash; the inputs
in this development are plain ASCII). -/
def jsonEscape (s : String) : String :=
  String.mk (s.toList.foldr (fun c acc =>
    if c = '"' then '\\' :: '"' :: acc
    else if c = '\\' then '\\' :: '\\' :: acc
    else c :: acc) [])

mutual

/-- `json.dumps` (the stdlib `json` module is external to the repository;
modelled with its default separators and key coercions): strings are
quoted and escaped, numeric/none keys of dicts are coerced to their text
form, bytes and datetimes raise `TypeError`. -/
def jsonDumps : Value → Except PyErr String
  | .none => .ok "null"
  | .bool b => .ok (if b then "true" else "false")
  | .int n => .ok (toString n)
  | .str s => .ok ("\"" ++ jsonEscape s ++ "\"")
  | .pylist xs => do
    let parts ← jsonDumpsList xs
    .ok ("[" ++ String.intercalate ", " parts ++ "]")
  | .pytuple xs => do
    let parts ← jsonDumpsList xs
    .ok ("[" ++ String.intercalate ", " parts ++ "]")
  | .pydict es => do
    let parts ← jsonDumpsEntries es
    .ok ("\x7b" ++ String.intercalate ", " parts ++ "\x7d")
  | .bytes _ => .error (.typeError "Object of type bytes is not JSON serializable")
  | .datetime _ => .error (.typeError "Object of type datetime is not JSON serializable")

def jsonDumpsList : List Value → Except PyErr (List String)
  | [] => .ok []
  | x :: xs => do
    let s ← jsonDumps x
    let rest ← jsonDumpsList xs
    .ok (s :: rest)

def jsonDumpsEntries : List (Value × Value) → Except PyErr (List String)
  | [] => .ok []
  | (k, v) :: es => do
    let ks ←
      match k with
      | .str s => Except.ok ("\"" ++ jsonEscape s ++ "\"")
      | .int n => Except.ok ("\"" ++ toString n ++ "\"")
      | .bool b => Except.ok (if b then "\"true\"" else "\"false\"")
      | .none => Except.ok "\"null\""
      | _ => Except.error (.typeError "keys must be str, int, float, bool or None")
    let vs ← jsonDumps v
    let rest ← jsonDumpsEntries es
    .ok ((ks ++ ": " ++ vs) :: rest)

end

mutual

/-- The schema-less blind serializer `_serialize_json_type_blind`
(json_serialization.py lines 59-87).  Dispatch order follows the source:
JSON scalars pass through (line 60); byte strings are base64-encoded to
text (lines 63-64); objects with a `serialize_json` hook (line 66) and
pydantic models (lines 81-85) are outside the value model; mappings
(lines 69-73) serialize each value and bind it under
`json.dumps(_serialize_json_type_blind(key))`; remaining collections
(lists/tuples, lines 75-76) map the serializer over their elements;
datetimes (lines 78-79) become ISO text.  The final
`raise SerializationError` (line 87) is unreachable for the constructors
modelled here. -/
def _serialize_json_type_blind : Value → Except PyErr Value
  | .none => .ok .none
  | .bool b => .ok (.bool b)
  | .int n => .ok (.int n)
  | .str s => .ok (.str s)
  | .bytes bs => .ok (.str (b64encode bs))
  | .pydict es => do
    let ps ← blindEntries es
    .ok (.pydict (dictBuild ps))
  | .pylist xs => do
    let ys ← blindList xs
    .ok (.pylist ys)
  | .pytuple xs => do
    let ys ← blindList xs
    .ok (.pylist ys)
  | .datetime t => .ok (.str (isoformat t))

def blindList : List Value → Except PyErr (List Value)
  | [] => .ok []
  | x :: xs => do
    let y ← _serialize_json_type_blind x
    let ys ← blindList xs
    .ok (y :: ys)

def blindEntries : List (Value × Value) → Except PyErr (List (Value × Value))
  | [] => .ok []
  | (k, v) :: es => do
    let ks ← _serialize_json_type_blind k
    let kd ← jsonDumps ks
    let vs ← _serialize_json_type_blind v
    let rest ← blindEntries es
    .ok ((Value.str kd, vs) :: rest)

end

mutual

/-- `issubclass_json_type` (json_serialization.py lines 90-126): whether a
descriptor denotes a type whose values are already valid JSON trees.
Primitives are (line 91); `bytes`/`bytearray` are not (lines 93-94);
unions require every member to be (lines 99-100); mappings require the
key type to be exactly `str` and the value type to be (lines 102-107);
fixed tuples require every component (lines 113-119), variadic tuples and
other single-argument collections their element type (lines 115-124);
anything without a generic origin, such as `datetime`, is not
(line 126). -/
def issubclass_json_type : Ty → Bool
  | .str | .int | .float | .bool | .noneT => true
  | .bytes => false
  | .union args => issubclass_json_type_all args
  | .dict k v => k.isStrT && issubclass_json_type v
  | .tuple args => issubclass_json_type_all args
  | .tupleVar t => issubclass_json_type t
  | .list t => issubclass_json_type t
  | .datetime => false

def issubclass_json_type_all : List Ty → Bool
  | [] => true
  | t :: ts => issubclass_json_type t && issubclass_json_type_all ts

end

mutual

/-- Size of a descriptor tree; a strict bound on the recursion depth of the
compilers, used as fuel. -/
def Ty.size : Ty → Nat
  | .union args => 1 + Ty.sizeList args
  | .tuple args => 1 + Ty.sizeList args
  | .tupleVar t => 1 + Ty.size t
  | .list t => 1 + Ty.size t
  | .dict k v => 1 + Ty.size k + Ty.size v
  | _ => 1

def Ty.sizeList : List Ty → Nat
  | [] => 0
  | t :: ts => Ty.size t + Ty.sizeList ts

end

/-- `typing.Union[args]`: a one-element union collapses to that element. -/
def mkUnion : List Ty → Ty
  | [t] => t
  | ts => .union ts

/-- Lines 141-147 (and 256-262): when the descriptor is a (PEP 604) union
containing `types.NoneType`, remove the null member and rebuild the union;
every other descriptor passes through unchanged. -/
def stripNoneUnion : Ty → Ty
  | .union args =>
    if args.any (·.isNoneTy) then mkUnion (args.filter (fun a => !a.isNoneTy))
    else .union args
  | t => t

/-- The serializer compiler `_compile_json_serializer`
(json_serialization.py lines 129-243), staged: the build phase dispatches
on the descriptor and raises schema errors; the returned `Frag` is the
denotation of the emitted statements.  Fuel bounds the recursion depth
(strictly less than `sizeOf` of the descriptor). -/
def _compile_json_serializerF : Nat → Ty → Except BuildErr Frag
  | 0, _ => .error .fuel
  | n + 1, T =>
    -- line 137: a JSON-typed descriptor compiles to the identity assignment
    if issubclass_json_type T then .ok Frag.idf
    else
      -- lines 141-151: strip None from unions, then recompute origin and args
      match stripNoneUnion T with
      | .union _ =>
        -- line 153: the origin of a multi-member union is typing.Union,
        -- which is not a class, so the build fails
        .error (.serializationError "Serialization of union not supported.")
      | .str | .int | .float | .bool | .noneT =>
        -- line 156: issubclass(base_class, _SimpleJson) — identity assignment
        .ok Frag.idf
      | .dict k v =>
        if k.isStrT then do
          -- lines 168-175: out = in.copy(); for key, value in out.items():
          -- recurse with args[0] — the KEY type, not the value type (line 172) —
          -- on the value binding; then out[key] = value
          let fk ← _compile_json_serializerF n k
          .ok (fun iv _ => do
            let v0 ← iv
            match v0 with
            | .pydict es => do
              let es2 ← es.mapM (fun kv => do
                let x2 ← fk (.ok kv.2) (.ok kv.2)
                pure (kv.1, x2))
              .ok (.pydict es2)
            | _ => .error (.attributeError "copy"))
        else do
          -- lines 177-186: out = {}; for key, value in in.items():
          -- recurse on both key and value; out[key] = value
          let fkey ← _compile_json_serializerF n k
          let fval ← _compile_json_serializerF n v
          .ok (fun iv _ => do
            let v0 ← iv
            match v0 with
            | .pydict es => do
              let ps ← es.mapM (fun kv => do
                let k2 ← fkey (.ok kv.1) (.ok kv.1)
                let v2 ← fval (.ok kv.2) (.ok kv.2)
                pure (k2, v2))
              .ok (.pydict (dictBuild ps))
            | _ => .error (.attributeError "items"))
      | .tuple args => do
        -- lines 189-197: per position, recurse with input text
        -- f"{out_var}[{i}]" — the OUTPUT binding, unbound at the top level —
        -- into a fresh variable; finally out = (var0, ..., varN,)
        let frags ← args.mapM (_compile_json_serializerF n)
        .ok (fun _iv ov => do
          let rs ← frags.enum.mapM (fun p =>
            p.2 (ov >>= fun v => pyIndex v p.1) (.error (.nameError "var")))
          .ok (.pytuple rs))
      | .list t => do
        -- lines 198-217: out = list(in); for i, e in enumerate(out):
        -- recurse on e in place; out[i] = e
        let fe ← _compile_json_serializerF n t
        .ok (fun iv _ => do
          let v0 ← iv
          let xs ← pyToList v0
          let ys ← xs.mapM (fun e => fe (.ok e) (.ok e))
          .ok (.pylist ys))
      | .tupleVar t => do
        -- same sequence branch: args[-1] is Ellipsis is stripped (lines 199-200)
        let fe ← _compile_json_serializerF n t
        .ok (fun iv _ => do
          let v0 ← iv
          let xs ← pyToList v0
          let ys ← xs.mapM (fun e => fe (.ok e) (.ok e))
          .ok (.pylist ys))
      | .bytes =>
        -- bytes is a collections.abc.Collection, so the sequence branch at
        -- line 188 matches before the base64 branch at line 219; args is the
        -- empty tuple, and `args[-1]` at line 199 raises IndexError at build
        -- time.  The base64 branch (lines 219-222), which itself emits
        -- base64.b64decode rather than b64encode, is unreachable for the bare
        -- bytes descriptor.
        .error (.indexError "tuple index out of range")
      | .datetime =>
        -- lines 224-226: out = in.isoformat()
        .ok (fun iv _ => do
          let v0 ← iv
          match v0 with
          | .datetime t => .ok (.str (isoformat t))
          | _ => .error (.attributeError "isoformat"))

/-- The deserializer compiler `_compile_json_deserializer`
(json_serialization.py lines 246-359), staged like the serializer. -/
def _compile_json_deserializerF : Nat → Ty → Except BuildErr Frag
  | 0, _ => .error .fuel
  | n + 1, T =>
    -- line 252: a JSON-typed descriptor compiles to the identity assignment
    if issubclass_json_type T then .ok Frag.idf
    else
      -- lines 256-266: strip None from unions, then recompute origin and args
      match stripNoneUnion T with
      | .union _ =>
        -- line 269: the origin of a multi-member union is not a class
        .error (.deserializationError "Deserialization of union not supported.")
      | .str | .int | .float | .bool | .noneT =>
        -- line 271: identity assignment
        .ok Frag.idf
      | .dict k v => do
        -- lines 275-292: out = BaseClass() (the concrete class captured as a
        -- constant); for key, value in in.items(): deserialize key and value
        -- (both recursions use the right types here); out[key] = value
        let fkey ← _compile_json_deserializerF n k
        let fval ← _compile_json_deserializerF n v
        .ok (fun iv _ => do
          let v0 ← iv
          match v0 with
          | .pydict es => do
            let ps ← es.mapM (fun kv => do
              let k2 ← fkey (.ok kv.1) (.ok kv.1)
              let v2 ← fval (.ok kv.2) (.ok kv.2)
              pure (k2, v2))
            .ok (.pydict (dictBuild ps))
          | _ => .error (.attributeError "items"))
      | .tuple args => do
        -- lines 294-309: per position, recurse with input f"{in_var}[{i}]"
        -- (line 302) into a fresh variable; out = (var0, ..., varN,).  The
        -- `base_class is not tuple` reconstruction at lines 296-297/306-307 is
        -- dead code under the `base_class is tuple` guard of line 295.
        let frags ← args.mapM (_compile_json_deserializerF n)
        .ok (fun iv _ => do
          let rs ← frags.enum.mapM (fun p =>
            p.2 (iv >>= fun v => pyIndex v p.1) (.error (.nameError "var")))
          .ok (.pytuple rs))
      | .list t => do
        -- lines 310-331: out = []; for e in in: deserialize e; out.append(e);
        -- finally out = BaseClass(out) with BaseClass = list
        let fe ← _compile_json_deserializerF n t
        .ok (fun iv _ => do
          let v0 ← iv
          let xs ← pyToList v0
          let ys ← xs.mapM (fun e => fe (.ok e) (.ok e))
          .ok (.pylist ys))
      | .tupleVar t => do
        -- same collection branch with BaseClass = tuple: the deserialized list
        -- is passed through the tuple constructor (line 330)
        let fe ← _compile_json_deserializerF n t
        .ok (fun iv _ => do
          let v0 ← iv
          let xs ← pyToList v0
          let ys ← xs.mapM (fun e => fe (.ok e) (.ok e))
          .ok (.pytuple ys))
      | .bytes =>
        -- same Collection-first routing as the serializer: `args[-1]` at
        -- line 311 raises IndexError at build time; the (correct) base64
        -- decode branch at lines 333-335 is unreachable for bare bytes
        .error (.indexError "tuple index out of range")
      | .datetime =>
        -- lines 338-341: out = datetime.datetime.fromisoformat(in)
        .ok (fun iv _ => do
          let v0 ← iv
          match v0 with
          | .str s =>
            match fromisoformat s with
            | some t => .ok (.datetime t)
            | Option.none => .error (.valueError "Invalid isoformat string")
          | _ => .error (.typeError "fromisoformat: argument must be str"))

/-- `compile_json_serializer` (lines 362-375): compile with enough fuel for
the descriptor (the recursion depth is bounded by `sizeOf`). -/
def compile_json_serializer (T : Ty) : Except BuildErr Frag :=
  _compile_json_serializerF (Ty.size T + 1) T

/-- `compile_json_deserializer` (lines 378-391). -/
def compile_json_deserializer (T : Ty) : Except BuildErr Frag :=
  _compile_json_deserializerF (Ty.size T + 1) T

/-- Invoke a compiled routine on a value: build errors surface as schema
errors; the fragment runs with the entry binding set to the value and the
exit binding unbound (`scope = {inp: data}; ...; return scope[out]`,
code_generator.py lines 146-151). -/
def runCompiled (r : Except BuildErr Frag) (v : Value) : Except SerErr Value :=
  match r with
  | .error e => .error (.build e)
  | .ok f => (f (.ok v) (.error (.nameError "out"))).mapError .run

/-- `serialize_json` (lines 394-398): with a descriptor, build and invoke a
compiled serializer; without one, fall back to the blind serializer. -/
def serialize_json (v : Value) (T? : Option Ty) : Except SerErr Value :=
  match T? with
  | Option.none => (_serialize_json_type_blind v).mapError SerErr.run
  | Option.some T => runCompiled (compile_json_serializer T) v

/-- `deserialize_json` (lines 401-405). -/
def deserialize_json (w : Value) (T : Ty) : Except SerErr Value :=
  runCompiled (compile_json_deserializer T) w

/-- The round trip `deserialize_json(serialize_json(v, T), T)`. -/
def json_roundtrip (T : Ty) (v : Value) : Except SerErr Value := do
  let w ← serialize_json v (Option.some T)
  deserialize_json w T

/-! The `type_serializer.py` code generators.  `SerializerCodegen` /
`DeserializerCodegen` are abstract: `is_scalar`, `scalar` and `tuple_` are
abstract methods and no concrete subclass is present under `src/`, so
those three are modelled from the spec (§4.3/§4.4/§6): primitives
serialize by identity, byte strings to base64 text, timestamps to
ISO-8601 text, and a fixed tuple is assembled into a fixed-length wire
array, with the deserializer reconstructing the concrete class. -/

/-- Python classes that occur as effective base classifications
(`typing.get_origin(arg)` or the type itself, `read_type_hint`
lines 17-27). -/
inductive PyClass where
  | strC | intC | floatC | boolC | noneC | bytesC | datetimeC
  | listC | tupleC | dictC | unionC
deriving DecidableEq, Repr

/-- The effective base classification of a descriptor: its generic origin
when it has one, otherwise the type itself (type_serializer.py lines 21-22
and 60). -/
def tyOrigin : Ty → PyClass
  | .str => .strC
  | .int => .intC
  | .float => .floatC
  | .bool => .boolC
  | .noneT => .noneC
  | .bytes => .bytesC
  | .datetime => .datetimeC
  | .union _ => .unionC
  | .tuple _ => .tupleC
  | .tupleVar _ => .tupleC
  | .list _ => .listC
  | .dict _ _ => .dictC

/-- Python `isinstance(value, origin)`; `bool` is a subclass of `int`. -/
def visinst : Value → PyClass → Bool
  | .bool _, .boolC => true
  | .bool _, .intC => true
  | .int _, .intC => true
  | .str _, .strC => true
  | .none, .noneC => true
  | .bytes _, .bytesC => true
  | .datetime _, .datetimeC => true
  | .pylist _, .listC => true
  | .pytuple _, .tupleC => true
  | .pydict _, .dictC => true
  | _, _ => false

/-- The union collision check (SerializerCodegen.union, lines 62-70): two
distinct positions whose base classifications are the same object. -/
def hasCollision (bs : List PyClass) : Bool :=
  bs.enum.any (fun p => bs.enum.any (fun q => decide (p.1 ≠ q.1) && p.2 == q.2))

/-- Modelled from the spec: the abstract `is_scalar` of the codegen
classes, absent from `src/`.  Per the spec's dispatch table, primitives,
byte strings and timestamps are leaf (scalar) kinds. -/
def ts_is_scalar : Ty → Bool
  | .str | .int | .float | .bool | .noneT | .bytes | .datetime => true
  | _ => false

/-- Modelled from the spec: the abstract `scalar` serializer emission —
primitives by identity, byte strings to base64 text, timestamps to
ISO-8601 text. -/
def ts_scalar_ser : Ty → Frag
  | .bytes => fun iv _ => do
    let v ← iv
    match v with
    | .bytes bs => .ok (.str (b64encode bs))
    | _ => .error (.typeError "expected bytes")
  | .datetime => fun iv _ => do
    let v ← iv
    match v with
    | .datetime t => .ok (.str (isoformat t))
    | _ => .error (.typeError "expected datetime")
  | _ => Frag.idf

/-- Modelled from the spec: the abstract `scalar` deserializer emission —
the inverse of `ts_scalar_ser`. -/
def ts_scalar_deser : Ty → Frag
  | .bytes => fun iv _ => do
    let v ← iv
    match v with
    | .str s => (b64decodeStr s).map Value.bytes
    | _ => .error (.typeError "expected str")
  | .datetime => fun iv _ => do
    let v ← iv
    match v with
    | .str s =>
      match fromisoformat s with
      | some t => .ok (.datetime t)
      | Option.none => .error (.valueError "Invalid isoformat string")
    | _ => .error (.typeError "expected str")
  | _ => Frag.idf

/-- `SerializerCodegen.any` (type_serializer.py lines 81-133), staged, with
the spec-modelled scalar/tuple_ leaves.  Scalars first (line 82); unions
(lines 88-89) check the collision rule and then emit an isinstance chain
that serializes the tagged pair `(i, in)` at type `tuple[int, member]`
(lines 72-79); mappings rebuild `list(in.items())` and recurse at
`list[tuple[K, V]]` (lines 46-48); fixed tuples read `in[i]` into fresh
variables, recurse, and assemble (lines 110-120); sequences and variadic
tuples copy into a list and recurse in place (lines 50-57, 121-131);
anything else is a build-time `SerializationError` (line 133). -/
def tsCompileSerF : Nat → Ty → Except BuildErr Frag
  | 0, _ => .error .fuel
  | n + 1, T =>
    if ts_is_scalar T then .ok (ts_scalar_ser T)
    else
      match T with
      | .union args =>
        let bases := args.map tyOrigin
        if hasCollision bases then
          .error (.serializationError
            "Cannot serialize union of two generic types that have the same origin.")
        else do
          let frags ← args.mapM (fun a => tsCompileSerF n (.tuple [.int, a]))
          .ok (fun iv ov => do
            let v ← iv
            match (args.zip frags).enum.find? (fun p => visinst v (tyOrigin p.2.1)) with
            | some p => p.2.2 (.ok (.pytuple [.int (Int.ofNat p.1), v])) ov
            | Option.none => ov)
      | .dict k v => do
        let f ← tsCompileSerF n (.list (.tuple [k, v]))
        .ok (fun iv ov =>
          f (iv >>= fun v0 =>
              match v0 with
              | .pydict es => .ok (.pylist (es.map (fun kv => .pytuple [kv.1, kv.2])))
              | _ => .error (.attributeError "items")) ov)
      | .tuple args => do
        let frags ← args.mapM (tsCompileSerF n)
        .ok (fun iv _ => do
          let rs ← frags.enum.mapM (fun p => do
            let tv ← iv >>= fun v => pyIndex v p.1
            p.2 (.ok tv) (.error (.nameError "var")))
          -- tuple_: modelled from the spec — a fixed-length wire array
          .ok (.pylist rs))
      | .list t => do
        let fe ← tsCompileSerF n t
        .ok (fun iv _ => do
          let v0 ← iv
          let xs ← pyToList v0
          let ys ← xs.mapM (fun e => fe (.ok e) (.ok e))
          .ok (.pylist ys))
      | .tupleVar t => do
        let fe ← tsCompileSerF n t
        .ok (fun iv _ => do
          let v0 ← iv
          let xs ← pyToList v0
          let ys ← xs.mapM (fun e => fe (.ok e) (.ok e))
          .ok (.pylist ys))
      | _ => .error (.serializationError "Serialization of type not supported.")

/-- `DeserializerCodegen.any` (type_serializer.py lines 186-238), staged.
Union decoding (lines 176-184) reads the tag `in[0]`, matches it against
each member index in order, and recurses into that member on `in[1]`;
mappings iterate the wire list of pairs and rebuild the captured concrete
class (lines 152-163); fixed tuples read `in[i]` and reconstruct (lines
215-225, `tuple_` modelled from the spec as invoking the concrete class);
sequences copy through the captured class and overwrite per index (lines
165-174) — which for a variadic tuple target raises TypeError on the
first item assignment, tuples being immutable. -/
def tsCompileDeserF : Nat → Ty → Except BuildErr Frag
  | 0, _ => .error .fuel
  | n + 1, T =>
    if ts_is_scalar T then .ok (ts_scalar_deser T)
    else
      match T with
      | .union args => do
        let frags ← args.mapM (tsCompileDeserF n)
        .ok (fun iv ov => do
          let v ← iv
          match frags with
          | [] => ov
          | _ => do
            let tag ← pyIndex v 0
            match frags.enum.find? (fun p => pyEq tag (.int (Int.ofNat p.1))) with
            | some p => do
              let payload ← pyIndex v 1
              p.2 (.ok payload) ov
            | Option.none => ov)
      | .dict k v => do
        let fkey ← tsCompileDeserF n k
        let fval ← tsCompileDeserF n v
        .ok (fun iv _ => do
          let v0 ← iv
          let xs ← pyToList v0
          let ps ← xs.mapM (fun pr => do
            let es ← pyToList pr
            match es with
            | [a, b] => do
              let k2 ← fkey (.ok a) (.ok a)
              let v2 ← fval (.ok b) (.ok b)
              pure (k2, v2)
            | _ => Except.error (.valueError "not enough values to unpack"))
          .ok (.pydict (dictBuild ps)))
      | .tuple args => do
        let frags ← args.mapM (tsCompileDeserF n)
        .ok (fun iv _ => do
          let rs ← frags.enum.mapM (fun p => do
            let tv ← iv >>= fun v => pyIndex v p.1
            p.2 (.ok tv) (.error (.nameError "var")))
          -- tuple_: modelled from the spec — reconstruct the concrete class
          .ok (.pytuple rs))
      | .list t => do
        let fe ← tsCompileDeserF n t
        .ok (fun iv _ => do
          let v0 ← iv
          let xs ← pyToList v0
          let ys ← xs.mapM (fun e => fe (.ok e) (.ok e))
          .ok (.pylist ys))
      | .tupleVar t => do
        let fe ← tsCompileDeserF n t
        .ok (fun iv _ => do
          let v0 ← iv
          let xs ← pyToList v0
          match xs with
          | [] => .ok (.pytuple [])
          | e :: _ => do
            let _ ← fe (.ok e) (.ok e)
            .error (.typeError "tuple object does not support item assignment"))
      | _ => .error (.serializationError "Serialization of type not supported.")

/-- Build a type_serializer serializer with enough fuel (the synthesized
descriptors `tuple[int, member]` / `list[tuple[K, V]]` at most double the
size per level). -/
def ts_compile_serializer (T : Ty) : Except BuildErr Frag :=
  tsCompileSerF (2 * Ty.size T + 4) T

/-- Build a type_serializer deserializer. -/
def ts_compile_deserializer (T : Ty) : Except BuildErr Frag :=
  tsCompileDeserF (2 * Ty.size T + 4) T

/-- End-to-end type_serializer serialization of one value. -/
def ts_serialize (v : Value) (T : Ty) : Except SerErr Value :=
  runCompiled (ts_compile_serializer T) v

/-- End-to-end type_serializer deserialization of one wire value. -/
def ts_deserialize (w : Value) (T : Ty) : Except SerErr Value :=
  runCompiled (ts_compile_deserializer T) w

/-! The invocation flow of a Compiled Routine (code_generator.py):
`CodeGenerator.compile` returns `func` (lines 146-152), which executes the
generated code under `_TracebackSourceContextManager` (lines 25-58). -/

/-- One `linecache.cache` entry as the context manager writes it
(lines 33-38): `(len(src), None, [line + "\n" for line in
src.splitlines()], name)`. -/
structure CacheEntry where
  size : Nat
  lines : List String
  name : String
deriving Repr, DecidableEq

/-- The process-wide `linecache.cache`, an association from synthetic
names to entries. -/
def Linecache : Type := List (String × CacheEntry)

/-- Dict item assignment `linecache.cache[name] = entry`. -/
def cacheSet : Linecache → String → CacheEntry → Linecache
  | [], name, e => [(name, e)]
  | (n0, e0) :: rest, name, e =>
    if n0 = name then (n0, e) :: rest else (n0, e0) :: cacheSet rest name e

/-- `del linecache.cache[name]`. -/
def cacheDel : Linecache → String → Linecache
  | [], _ => []
  | (n0, e0) :: rest, name =>
    if n0 = name then cacheDel rest name else (n0, e0) :: cacheDel rest name

/-- Dict lookup in the cache. -/
def cacheGet : Linecache → String → Option CacheEntry
  | [], _ => Option.none
  | (n0, e0) :: rest, name => if n0 = name then some e0 else cacheGet rest name

/-- Splitter worker for `pySplitlines`. -/
def splitLinesAux : List Char → List Char → List String
  | [], acc => [String.mk acc.reverse]
  | ['\n'], acc => [String.mk acc.reverse]
  | '\n' :: rest, acc => String.mk acc.reverse :: splitLinesAux rest []
  | c :: rest, acc => splitLinesAux rest (c :: acc)

/-- Python `str.splitlines()` restricted to `"\n"` terminators: splits on
newlines, with no empty final line for a trailing newline and no lines at
all for the empty string. -/
def pySplitlines (s : String) : List String :=
  match s.toList with
  | [] => []
  | cs => splitLinesAux cs []

/-- The cached line list `[line + "\n" for line in src.splitlines()]`
(line 36). -/
def srcCacheLines (src : String) : List String :=
  (pySplitlines src).map (fun l => l ++ "\n")

/-- The observable outcome of `scope = {in_var: data}; exec(code, consts,
scope); scope[out_var]` for one invocation: the exit value on success, or
an exception together with the generated-source line number of the
traceback frame inside the generated code when there is one
(`exc_tb.tb_next`). -/
inductive ExecOutcome where
  | success (out : Value)
  | raised (e : PyErr) (tbNext : Option Nat)

/-- The note attached on failure (lines 53-57):
`lines[exc_tb.tb_next.tb_lineno - 1]` from `src.splitlines()` plus the
full source. -/
def diagnosticNote (src : String) (ln : Nat) : String :=
  "Exception occurred in dynamically generated code:\n"
    ++ (pySplitlines src).getD (ln - 1) ""
    ++ "\n\nFull source:\n" ++ src

/-- Result of one invocation: the exit value or the propagated exception
with its attached notes, plus the post-invocation `linecache.cache`. -/
structure InvokeResult where
  result : Except (PyErr × List String) Value
  cache : Linecache

/-- One invocation of a Compiled Routine (`func`, lines 146-152, under
`_TracebackSourceContextManager`): `__enter__` registers the generated
source under the synthetic name (lines 30-40); on success (`exc_type is
None`) `__exit__` deletes the cache entry (lines 43-48) and `func` returns
the exit binding; on failure `__exit__` attaches the diagnostic note when
the traceback reaches into the generated code (lines 49-57) and returns
False, re-raising — the `del cache[self.name]` at line 46 is only in the
`exc_type is None` branch, so the entry stays registered on this path. -/
def invokeCompiled (src name : String) (outcome : ExecOutcome)
    (cache : Linecache) : InvokeResult :=
  let cache1 := cacheSet cache name ⟨src.length, srcCacheLines src, name⟩
  match outcome with
  | .success v => ⟨.ok v, cacheDel cache1 name⟩
  | .raised e tb? =>
    match tb? with
    | some ln => ⟨.error (e, [diagnosticNote src ln]), cache1⟩
    | Option.none => ⟨.error (e, []), cache1⟩

/-! `FileSystemStore` (serializable.py lines 205-222). -/

/-- A store holding a deserialized value and the path it was opened from
(dataclass fields `data` and `path`). -/
structure FileSystemStore (α : Type) where
  data : α
  path : String

/-- A durable write effect.  Modelled from the spec: the `saferw` module
(`safe_write_bytes`) is not under `src/`; per §6 the storage collaborator
"serializes the held value and writes it durably" at a location. -/
structure WriteEffect where
  path : String
  payload : List Nat
deriving Repr, DecidableEq

/-- `FileSystemStore.save` (lines 221-222):
`saferw.safe_write_bytes(self.path if path is None else path,
self.data.serialize())`.  The body contains no field assignment, so the
post-state store is returned unchanged alongside the write effect;
`serialize` stands for the held value's abstract
`Serializable.serialize`. -/
def FileSystemStore.save {α : Type} (serialize : α → List Nat)
    (s : FileSystemStore α) (path? : Option String) :
    FileSystemStore α × WriteEffect :=
  (s, ⟨match path? with | Option.none => s.path | some p => p,
       serialize s.data⟩)

/-- Whether a deserialization result delivered a Python tuple. -/
def resultIsTuple (r : Except SerErr Value) : Bool :=
  match r with
  | .ok (.pytuple _) => true
  | _ => false

mutual

/-- Membership in the wire format `JsonType` (json_serialization.py lines
15-20): JSON scalars, collections of wire values, and mappings from text
to wire values; byte strings and datetimes are not wire values. -/
def isJsonWire : Value → Bool
  | .none | .bool _ | .int _ | .str _ => true
  | .pylist xs => isJsonWireList xs
  | .pytuple xs => isJsonWireList xs
  | .pydict es => isJsonWireEntries es
  | .bytes _ | .datetime _ => false

def isJsonWireList : List Value → Bool
  | [] => true
  | x :: xs => isJsonWire x && isJsonWireList xs

def isJsonWireEntries : List (Value × Value) → Bool
  | [] => true
  | (k, v) :: es =>
    (match k with | .str _ => true | _ => false) && isJsonWire v
      && isJsonWireEntries es

end

/-! Supporting lemmas. -/

theorem issubclass_json_type_union_pair (T : Ty) :
    issubclass_json_type (.union [T, .noneT]) = issubclass_json_type T := by
  simp [issubclass_json_type, issubclass_json_type_all]

theorem isNoneTy_false_of_not_json (T : Ty)
    (h : issubclass_json_type T = false) : T.isNoneTy = false := by
  cases T <;> simp_all [Ty.isNoneTy, issubclass_json_type]

theorem isNoneTy_noneT : Ty.noneT.isNoneTy = true := rfl

theorem stripNoneUnion_pair (T : Ty) (h : T.isNoneTy = false) :
    stripNoneUnion (.union [T, .noneT]) = T := by
  simp only [stripNoneUnion, List.any_cons, List.any_nil, isNoneTy_noneT,
    Bool.or_true, Bool.or_false, Bool.true_or, if_true,
    List.filter_cons, List.filter_nil, h, Bool.not_false, Bool.not_true,
    if_false, mkUnion]
  simp

theorem stripNoneUnion_self (T : Ty) (h : T.isUnionTy = false) :
    stripNoneUnion T = T := by
  cases T <;> simp_all [stripNoneUnion, Ty.isUnionTy]

theorem cacheGet_cacheSet (c : Linecache) (name : String) (e : CacheEntry) :
    cacheGet (cacheSet c name e) name = some e := by
  induction c with
  | nil => simp [cacheSet, cacheGet]
  | cons hd tl ih =>
    obtain ⟨n0, e0⟩ := hd
    by_cases hn : n0 = name <;> simp [cacheSet, cacheGet, hn, ih]

theorem cacheGet_cacheDel (c : Linecache) (name : String) :
    cacheGet (cacheDel c name) name = Option.none := by
  induction c with
  | nil => simp [cacheDel, cacheGet]
  | cons hd tl ih =>
    obtain ⟨n0, e0⟩ := hd
    by_cases hn : n0 = name <;> simp [cacheDel, cacheGet, hn, ih]

/-! Claim theorems. -/

/-- C1.  The claimed round trip `deserialize_json(serialize_json(v, T), T)
== v` fails for the supported descriptor `bytes` at `v = b"ab"`: building
the serializer already raises an uncaught IndexError, because `bytes` is a
`collections.abc.Collection` and is routed into the sequence branch, whose
`args[-1]` test hits the empty argument tuple. -/
theorem c1_round_trip_fails_for_bytes :
    json_roundtrip .bytes (.bytes [97, 98])
      = .error (.build (.indexError "tuple index out of range"))
    ∧ serialize_json (.bytes [97, 98]) (Option.some .bytes)
      = .error (.build (.indexError "tuple index out of range")) :=
  ⟨rfl, rfl⟩

/-- C2.  Serializing `b"ab"` under the bytes descriptor does not produce
`"YWI="`: the compiled path fails at build time with IndexError (the
Collection branch precedes the base64 branch, which itself would emit a
base64 decode, not an encode).  The base64 text encoding of `b"ab"` is
indeed `"YWI="`, and the schema-less blind serializer produces it. -/
theorem c2_bytes_serialization_build_failure :
    serialize_json (.bytes [97, 98]) (Option.some .bytes)
      = .error (.build (.indexError "tuple index out of range"))
    ∧ b64encode [97, 98] = "YWI="
    ∧ serialize_json (.bytes [97, 98]) Option.none = .ok (.str "YWI=") :=
  ⟨rfl, rfl, rfl⟩

/-- C3.  Under `Tuple(Int, String)` both directions are the identity
assignment, because `issubclass_json_type(tuple[int, str])` is true:
serializing `(1, "a")` returns the tuple unchanged (not the list
`[1, "a"]`), and deserializing the wire array `[1, "a"]` returns that list
unchanged — no tuple is reconstructed. -/
theorem c3_tuple_descriptor_is_identity_not_reconstruction :
    serialize_json (.pytuple [.int 1, .str "a"])
        (Option.some (.tuple [.int, .str]))
      = .ok (.pytuple [.int 1, .str "a"])
    ∧ deserialize_json (.pylist [.int 1, .str "a"]) (.tuple [.int, .str])
      = .ok (.pylist [.int 1, .str "a"])
    ∧ resultIsTuple
        (deserialize_json (.pylist [.int 1, .str "a"]) (.tuple [.int, .str]))
      = false :=
  ⟨rfl, rfl, rfl⟩

/-- C4.  For a text-keyed mapping whose value type is not a JSON type, the
compiled serializer recurses with the KEY type (`args[0]`, line 172) on
the value binding: under `Mapping(String, Timestamp)` the datetime value
is passed through unconverted, so the output is not a wire value.  The
particular `Mapping(String, Int)` instance `{"a": 1}` does serialize to
`{"a": 1}` unchanged (via the JSON-type identity shortcut). -/
theorem c4_text_key_mapping_recurses_with_key_type :
    serialize_json (.pydict [(.str "a", .datetime 0)])
        (Option.some (.dict .str .datetime))
      = .ok (.pydict [(.str "a", .datetime 0)])
    ∧ isJsonWire (.pydict [(.str "a", .datetime 0)]) = false
    ∧ serialize_json (.pydict [(.str "a", .int 1)])
        (Option.some (.dict .str .int))
      = .ok (.pydict [(.str "a", .int 1)]) :=
  ⟨rfl, rfl, rfl⟩

/-- C5.  Union values serialize to the tagged fixed-length array
`[member_index, payload]` with the index taken in declaration order, and
deserialization reads the tag at position 0 and recurses into that member
on position 1: under `Union(Int, String)`, `"hi" ↦ [1, "hi"]` and
`5 ↦ [0, 5]`, and both wire arrays decode back. -/
theorem c5_union_tagged_array_encoding :
    ts_serialize (.str "hi") (.union [.int, .str])
      = .ok (.pylist [.int 1, .str "hi"])
    ∧ ts_serialize (.int 5) (.union [.int, .str])
      = .ok (.pylist [.int 0, .int 5])
    ∧ ts_deserialize (.pylist [.int 1, .str "hi"]) (.union [.int, .str])
      = .ok (.str "hi")
    ∧ ts_deserialize (.pylist [.int 0, .int 5]) (.union [.int, .str])
      = .ok (.int 5) :=
  ⟨rfl, rfl, rfl, rfl⟩

/-- C6.  Whenever two union members share an effective base
classification, compiling the serializer raises the schema error at build
time — the staged compiler returns the error before any value can be
processed; unions with pairwise-distinct base classifications, such as
`Union(Int, String)` and `Union(Int, Sequence(Int))`, compile without
error. -/
theorem c6_union_collision_is_build_time_error (n : Nat) (args : List Ty)
    (h : hasCollision (args.map tyOrigin) = true) :
    tsCompileSerF (n + 1) (.union args)
      = .error (.serializationError
          "Cannot serialize union of two generic types that have the same origin.")
    ∧ (ts_compile_serializer (.union [.int, .str])).isOk = true
    ∧ (ts_compile_serializer (.union [.int, .list .int])).isOk = true := by
  refine ⟨?_, rfl, rfl⟩
  simp [tsCompileSerF, ts_is_scalar, h]

/-- Witness for C6 at the colliding union `Union(Sequence(Int),
Sequence(String))`, whose members both have base classification `list`. -/
theorem c6_union_collision_is_build_time_error_witness :
    tsCompileSerF 7 (.union [.list .int, .list .str])
      = .error (.serializationError
          "Cannot serialize union of two generic types that have the same origin.") :=
  (c6_union_collision_is_build_time_error 6 [.list .int, .list .str]
    (by decide)).1

/-- C7.  The blind serializer is not value-compatible with the compiled
path: on `{"a": 1}` the blind path JSON-encodes the key
(`json.dumps("a") = "\"a\""`) while the compiled path for
`Mapping(String, Int)` leaves it as `"a"`; and on `b"ab"` the blind path
returns `"YWI="` while the compiled path for `bytes` fails at build
time. -/
theorem c7_blind_and_compiled_disagree :
    serialize_json (.pydict [(.str "a", .int 1)]) Option.none
      = .ok (.pydict [(.str "\"a\"", .int 1)])
    ∧ serialize_json (.pydict [(.str "a", .int 1)])
        (Option.some (.dict .str .int))
      = .ok (.pydict [(.str "a", .int 1)])
    ∧ (("\"a\"" : String) == "a") = false
    ∧ serialize_json (.bytes [97, 98]) Option.none = .ok (.str "YWI=")
    ∧ serialize_json (.bytes [97, 98]) (Option.some .bytes)
      = .error (.build (.indexError "tuple index out of range")) :=
  ⟨rfl, rfl, rfl, rfl, rfl⟩

/-- C8 counterexample.  A failing invocation does NOT deregister the
synthetic source identifier: invoking the routine for source
`out = inp.x` under name `<gen>` on an empty `linecache` with a failure
inside the generated code leaves the identifier registered (the claim
says it would have been deregistered before re-raising); the diagnostic
note with the failing line and full source is attached. -/
theorem c8_failure_does_not_deregister :
    cacheGet (invokeCompiled "out = inp.x" "<gen>"
        (.raised (.attributeError "x") (some 1)) []).cache "<gen>"
      = some ⟨11, ["out = inp.x\n"], "<gen>"⟩
    ∧ (invokeCompiled "out = inp.x" "<gen>"
        (.raised (.attributeError "x") (some 1)) []).result
      = .error (.attributeError "x",
          ["Exception occurred in dynamically generated code:\nout = inp.x\n\nFull source:\nout = inp.x"]) :=
  ⟨rfl, rfl⟩

/-- C8 amended.  On success an invocation deregisters the synthetic
identifier and returns the exit binding; on a failure originating inside
the generated code it attaches the diagnostic note naming the failing
generated line and the full source and re-raises, but leaves the
identifier registered. -/
theorem c8_diagnostic_note_and_registration (src name : String) (e : PyErr)
    (ln : Nat) (v : Value) (cache : Linecache) :
    (invokeCompiled src name (.success v) cache).result = .ok v
    ∧ cacheGet (invokeCompiled src name (.success v) cache).cache name
        = Option.none
    ∧ (invokeCompiled src name (.raised e (some ln)) cache).result
        = .error (e, [diagnosticNote src ln])
    ∧ cacheGet (invokeCompiled src name (.raised e (some ln)) cache).cache name
        = some ⟨src.length, srcCacheLines src, name⟩ := by
  refine ⟨rfl, ?_, rfl, ?_⟩
  · simp [invokeCompiled, cacheGet_cacheDel]
  · simp [invokeCompiled, cacheGet_cacheSet]

/-- C9.  Null removal from an optional descriptor: for any non-union
member type `T`, compiling `T | None` produces exactly the same serializer
and deserializer as compiling `T` alone — the null member is removed
before recursing, nullability is not re-attached, and in particular the
compiled routine contains no null-handling branch for the removed
member. -/
theorem c9_null_removed_without_reattachment (n : Nat) (T : Ty)
    (h : T.isUnionTy = false) :
    _compile_json_serializerF (n + 1) (.union [T, .noneT])
      = _compile_json_serializerF (n + 1) T
    ∧ _compile_json_deserializerF (n + 1) (.union [T, .noneT])
      = _compile_json_deserializerF (n + 1) T := by
  constructor
  · cases hj : issubclass_json_type T with
    | true =>
      simp only [_compile_json_serializerF, issubclass_json_type_union_pair,
        hj, if_true]
    | false =>
      simp only [_compile_json_serializerF, issubclass_json_type_union_pair,
        hj, Bool.false_eq_true, if_false,
        stripNoneUnion_pair T (isNoneTy_false_of_not_json T hj),
        stripNoneUnion_self T h]
  · cases hj : issubclass_json_type T with
    | true =>
      simp only [_compile_json_deserializerF, issubclass_json_type_union_pair,
        hj, if_true]
    | false =>
      simp only [_compile_json_deserializerF, issubclass_json_type_union_pair,
        hj, Bool.false_eq_true, if_false,
        stripNoneUnion_pair T (isNoneTy_false_of_not_json T hj),
        stripNoneUnion_self T h]

/-- Witness for C9 at `T = bytes`: the serializer compiled for
`bytes | None` is the one compiled for `bytes`. -/
theorem c9_null_removed_without_reattachment_witness :
    _compile_json_serializerF 3 (.union [.bytes, .noneT])
      = _compile_json_serializerF 3 .bytes :=
  (c9_null_removed_without_reattachment 2 .bytes (by decide)).1

/-- C10.  `FileSystemStore.save` with an explicit path writes the
serialization of the held value to that path and returns the store with
every field unchanged; consequently a subsequent `save()` with no argument
writes to the original location held in the `path` field, not to the
explicit one. -/
theorem c10_save_with_explicit_path_frame (α : Type)
    (serialize : α → List Nat) (s : FileSystemStore α) (p : String) :
    FileSystemStore.save serialize s (some p) = (s, ⟨p, serialize s.data⟩)
    ∧ (FileSystemStore.save serialize
        ((FileSystemStore.save serialize s (some p)).1) Option.none).2
      = ⟨s.path, serialize s.data⟩ :=
  ⟨rfl, rfl⟩

end Pipifax
